import Mathlib

/-!
Shallow embedding of the WuKongIM EasyJSSDK connection and protocol session
manager (`WKIM` class in `src/index.ts`).  Pure decision logic becomes Lean
functions; the stateful class becomes explicit state passing over a
`WKIMState` record; side effects (promise settlements, outbound frames,
emitted SDK events, timer arming/clearing, transport closes) become an
explicit `Effect` list returned by each step function.  Machine numbers in
the source are plain JS numbers used as integers here.
-/

/-- Opaque JSON value, used for business payloads and decoded event data. -/
inductive JsonValue where
  | null : JsonValue
  | bool (b : Bool) : JsonValue
  | num (n : Int) : JsonValue
  | str (s : String) : JsonValue
  | arr (elems : List JsonValue) : JsonValue
  | obj (fields : List (String × JsonValue)) : JsonValue
deriving Repr

/-- `Header` interface: four optional boolean flags (source lines 150-155).
`none` models an absent field, matching the JS optional property. -/
structure Header where
  noPersist : Option Bool := none
  redDot : Option Bool := none
  syncOnce : Option Bool := none
  dup : Option Bool := none
deriving Repr

/-- `RecvMessage` interface (source lines 157-172); the business payload is
opaque. Optional protocol fields not used by any handler are omitted. -/
structure RecvMessage where
  header : Header
  messageId : String
  messageSeq : Int
  timestamp : Int
  channelId : String
  channelType : Int
  fromUid : String
  payload : JsonValue
deriving Repr

/-- SDK `Event` names enum (source lines 51-66). -/
inductive SdkEvent where
  | connect
  | disconnect
  | message
  | error
  | sendack
  | reconnecting
  | customevent
deriving Repr, DecidableEq

/-- The value of the `data` field of an event notification: either a raw
string (possibly JSON-encoded) or an already-structured value. -/
inductive DataVal where
  | str (s : String)
  | val (v : JsonValue)
deriving Repr

/-- The `params` of an inbound `event` notification, before validation
(source `handleEventNotification`, lines 656-691).  Fields may be absent. -/
structure EventParams where
  header : Option Header := none
  id : Option String := none
  type : Option String := none
  timestamp : Option Int := none
  data : Option DataVal := none
deriving Repr

/-- The `EventNotification` record passed to `customevent` listeners
(source lines 178-189), after validation and best-effort decode. -/
structure EventOut where
  header : Option Header
  id : Option String
  type : Option String
  timestamp : Option Int
  data : Option DataVal
deriving Repr

/-- JS truthiness test for an optional string: `!x` is true when the field
is absent or is the empty string. -/
def jsFalsyStr : Option String → Bool
  | none => true
  | some s => s = ""

/-- Payload attached to an emitted SDK event, restricted to the shapes the
session actually emits. -/
inductive EmitPayload where
  | unit
  | msg (m : RecvMessage)
  | custom (e : EventOut)
  | errMsg (s : String)
  | reconnectingInfo (attempt : Nat) (delay : Nat)
  | connectResult
  | other
deriving Repr

/-- Settlement of a promise: `resolved` (result value passed through,
opaque) or `rejected` with the error message. -/
inductive Outcome where
  | resolved
  | rejected (msg : String)
deriving Repr

/-- Parameters of an outbound notification frame, restricted to the shapes
the session sends. -/
inductive NotifParams where
  | recvack (header : Header) (messageId : String) (messageSeq : Int)
  | other (v : JsonValue)
deriving Repr

/-- Observable side effects of one synchronous handler run. -/
inductive Effect where
  /-- Settle (resolve/reject) the promise of pending request `rid`. -/
  | settle (rid : String) (o : Outcome)
  /-- `clearTimeout` on the timeout timer of pending request `rid`. -/
  | clearTimer (rid : String)
  /-- `emit(event, payload)` to the registered listeners. -/
  | emit (ev : SdkEvent) (p : EmitPayload)
  /-- Write a notification frame (no id) to the transport. -/
  | sendNotif (method : String) (params : NotifParams)
  /-- Write a request frame with correlation id `rid` to the transport. -/
  | sendReq (method : String) (rid : String)
  /-- `ws.close(code, ...)`. -/
  | wsClose (code : Nat)
  /-- Settle the public connect promise held for caller `c`. -/
  | settleConnectP (c : Nat) (o : Outcome)
  /-- `setTimeout(..., delay)` arming the reconnect timer. -/
  | scheduleTimer (delay : Nat)
  /-- The reconnect timer callback invokes `this.connect()`. -/
  | callConnect
  /-- `new WebSocketImpl(url)`: a fresh transport is opened. -/
  | openTransport
  /-- `stopPing()` clears the keepalive interval. -/
  | stopPing
  /-- Null out `onopen/onmessage/onerror/onclose` on the old transport. -/
  | detachHandlers
deriving Repr


/-- `readyState` of the underlying WebSocket handle. -/
inductive WsReadyState where
  | connecting
  | open
  | closing
  | closed
deriving Repr, DecidableEq

/-- Mutable fields of the `WKIM` instance that the claims concern.
`connectionPromise` stores, when present, the identifier of the caller
whose `resolve`/`reject` continuations are currently held (the source
stores the continuation functions themselves; settling emits
`Effect.settleConnectP` for that caller).  `pendingRequests` lists the
request ids currently in the correlation table; by construction the
timeout timer of a request is armed exactly while its id is listed
(registration arms it, and every removal either clears it or is the
timer itself firing). -/
structure WKIMState where
  ws : Option WsReadyState := none
  isConnected : Bool := false
  connectionPromise : Option Nat := none
  pendingRequests : List String := []
  reconnectAttempts : Nat := 0
  isReconnecting : Bool := false
  manualDisconnect : Bool := false
deriving Repr

/-- `maxReconnectAttempts` field initializer (source line 242). -/
def maxReconnectAttempts : Nat := 5

/-- `initialReconnectDelay` field initializer (source line 243), in ms. -/
def initialReconnectDelay : Nat := 1000

/-- `cleanupConnection` (source lines 743-774): set `isConnected` to
false, stop the keepalive, clear each pending request's timer and reject
its promise with "Connection closed", empty the table, then reject the
stored connect promise with "Connection closed during operation" unless a
reconnection loop is in progress, and detach the transport handlers. -/
def cleanupConnection (s : WKIMState) : WKIMState × List Effect :=
  let rejEffs := (s.pendingRequests.map fun rid =>
    [Effect.clearTimer rid, Effect.settle rid (.rejected "Connection closed")]).flatten
  let s1 : WKIMState :=
    { s with isConnected := false, pendingRequests := [] }
  let (s2, cpEffs) :=
    match s1.connectionPromise with
    | some c =>
        if !s1.isReconnecting && !s1.isConnected then
          ({ s1 with connectionPromise := none },
           [Effect.settleConnectP c (.rejected "Connection closed during operation")])
        else
          ({ s1 with connectionPromise := none }, ([] : List Effect))
    | none => (s1, [])
  let detach : List Effect := match s2.ws with
    | some _ => [Effect.detachHandlers]
    | none => []
  (s2, Effect.stopPing :: rejEffs ++ cpEffs ++ detach)

/-- `handleDisconnect(graceful, reason)` (source lines 728-741): when a
transport handle exists, stop the keepalive and close it — with the
normal code 1000 when graceful and open, or the custom code 3001 when it
is connecting or open — then run `cleanupConnection`. -/
def handleDisconnect (graceful : Bool) (s : WKIMState) : WKIMState × List Effect :=
  let closeEffs : List Effect :=
    match s.ws with
    | some rs =>
        if graceful && rs = WsReadyState.open then
          [Effect.stopPing, Effect.wsClose 1000]
        else if rs = WsReadyState.connecting || rs = WsReadyState.open then
          [Effect.stopPing, Effect.wsClose 3001]
        else
          [Effect.stopPing]
    | none => []
  let (s', effs) := cleanupConnection s
  (s', closeEffs ++ effs)

/-- `disconnect()` (source lines 369-375): set the manual-disconnect
flag, clear `isReconnecting`, then `handleDisconnect(true, ...)`. -/
def disconnect (s : WKIMState) : WKIMState × List Effect :=
  let s0 : WKIMState := { s with manualDisconnect := true, isReconnecting := false }
  handleDisconnect true s0

/-- `scheduleReconnect` (source lines 812-840), up to the point where the
retry timer is armed.  At or above the attempt bound: clear
`isReconnecting`, reset the counter, emit a terminal error, arm nothing.
Otherwise: compute the exponential-backoff delay from the current
counter, increment the counter, emit a `reconnecting` event and arm the
retry timer with that delay. -/
def scheduleReconnect (s : WKIMState) : WKIMState × List Effect :=
  if s.reconnectAttempts ≥ maxReconnectAttempts then
    ({ s with isReconnecting := false, reconnectAttempts := 0 },
     [Effect.emit .error (.errMsg "Reconnection failed.")])
  else
    let delay := initialReconnectDelay * 2 ^ s.reconnectAttempts
    ({ s with reconnectAttempts := s.reconnectAttempts + 1 },
     [Effect.emit .reconnecting (.reconnectingInfo (s.reconnectAttempts + 1) delay),
      Effect.scheduleTimer delay])

/-- The callback armed by `scheduleReconnect`'s `setTimeout` (source
lines 827-839): if `isReconnecting` has been cleared while waiting, do
nothing; otherwise invoke `connect()`. -/
def reconnectTimerCallback (s : WKIMState) : List Effect :=
  if !s.isReconnecting then [] else [Effect.callConnect]

/-- `tryReconnect` (source lines 802-810): no-op while already
reconnecting or after a manual disconnect; otherwise set
`isReconnecting` and run `scheduleReconnect`. -/
def tryReconnect (s : WKIMState) : WKIMState × List Effect :=
  if s.isReconnecting || s.manualDisconnect then (s, [])
  else scheduleReconnect { s with isReconnecting := true }

/-- The synchronous body of `connect()` (source lines 297-320), with the
new caller's promise identified by `caller`.  When already connected the
new promise resolves at once; when the transport is still in the
`CONNECTING` ready-state and a stored connect promise exists, the stored
`resolve`/`reject` fields are overwritten with the new caller's
continuations (source lines 305-306); otherwise with no stored promise
the new promise is rejected; in all remaining cases the manual-disconnect
flag is cleared, the new promise is stored and a fresh transport is
opened. -/
def connectStep (caller : Nat) (s : WKIMState) : WKIMState × List Effect :=
  if s.isConnected || s.ws = some WsReadyState.connecting then
    if s.isConnected then
      (s, [Effect.settleConnectP caller .resolved])
    else
      match s.connectionPromise with
      | some _ => ({ s with connectionPromise := some caller }, [])
      | none =>
          (s, [Effect.settleConnectP caller
                (.rejected "Already connecting, but no connection promise found.")])
  else
    ({ s with manualDisconnect := false,
              connectionPromise := some caller,
              ws := some WsReadyState.connecting },
     [Effect.openTransport])

/-- The `.then` branch of `sendConnectRequest` (source lines 499-514):
on authentication success mark connected, reset the reconnection state,
start the keepalive, emit `connect`, and resolve the stored connect
promise. -/
def authSuccess (s : WKIMState) : WKIMState × List Effect :=
  let s1 : WKIMState :=
    { s with isConnected := true, reconnectAttempts := 0,
             isReconnecting := false, manualDisconnect := false }
  match s1.connectionPromise with
  | some c =>
      ({ s1 with connectionPromise := none },
       [Effect.emit .connect .connectResult, Effect.settleConnectP c .resolved])
  | none =>
      (s1, [Effect.emit .connect .connectResult])

/-- The `.catch` branch of `sendConnectRequest` (source lines 515-525):
on authentication failure emit an error, reject and drop the stored
connect promise, run `handleDisconnect(false, ...)` (forcing transport
closure), then `cleanupConnection` once more. -/
def authFailure (errMsg : String) (s : WKIMState) : WKIMState × List Effect :=
  let e1 : List Effect := [Effect.emit .error (.errMsg errMsg)]
  let (s1, e2) :=
    match s.connectionPromise with
    | some c =>
        ({ s with connectionPromise := none },
         [Effect.settleConnectP c (.rejected errMsg)])
    | none => (s, ([] : List Effect))
  let (s2, e3) := handleDisconnect false s1
  let (s3, e4) := cleanupConnection s2
  (s3, e1 ++ e2 ++ e3 ++ e4)

/-- `sendNotification(method, params)` (source lines 560-577): write the
frame when the transport is open, otherwise log and send nothing. -/
def sendNotificationStep (wsOpen : Bool) (method : String) (params : NotifParams) :
    List Effect :=
  if wsOpen then [Effect.sendNotif method params] else []

/-- `sendRecvAck(header, messageId, messageSeq)` (source lines 641-650):
emit a `recvack` notification echoing the received message's header,
id and sequence. -/
def sendRecvAck (wsOpen : Bool) (header : Header) (messageId : String)
    (messageSeq : Int) : List Effect :=
  sendNotificationStep wsOpen "recvack" (.recvack header messageId messageSeq)

/-- An inbound notification frame, dispatched by method name
(source `handleNotification`, lines 615-639). -/
inductive InboundNotif where
  | recv (m : RecvMessage)
  | pong
  | disconnectN
  | eventN (p : EventParams)
  | other (method : String)

/-- Decode attempt on a JSON-encoded string (`JSON.parse`): the host
JSON decoder is external to the session manager, so the router is
parameterised over it; `none` models a parse exception. -/
def JsonParseFn : Type := String → Option JsonValue

/-- `handleEventNotification(params)` (source lines 656-691): when the
`id` or `type` field is JS-falsy, emit an error and no custom event;
otherwise, when `data` is a string, replace it by its decoded value if
the decode succeeds and keep the original string if it fails, and emit
the `customevent` with the (possibly decoded) record. -/
def handleEventNotification (jsonParse : JsonParseFn) (p : EventParams) :
    List Effect :=
  if jsFalsyStr p.id || jsFalsyStr p.type then
    [Effect.emit .error (.errMsg "Invalid event notification: missing required fields")]
  else
    let data' : Option DataVal :=
      match p.data with
      | some (DataVal.str s) =>
          match jsonParse s with
          | some v => some (DataVal.val v)
          | none => some (DataVal.str s)
      | d => d
    [Effect.emit .customevent (.custom
      { header := p.header, id := p.id, type := p.type,
        timestamp := p.timestamp, data := data' })]

/-- `handleNotification(notification)` (source lines 615-639): dispatch
on the method name.  `recv` emits one `message` event and acknowledges;
`pong` is absorbed; `disconnect` emits a `disconnect` event and forces a
local non-graceful teardown; `event` goes to `handleEventNotification`;
anything else is logged and dropped. -/
def handleNotification (jsonParse : JsonParseFn) (wsOpen : Bool) (s : WKIMState) :
    InboundNotif → WKIMState × List Effect
  | .recv m =>
      (s, Effect.emit .message (.msg m) ::
          sendRecvAck wsOpen m.header m.messageId m.messageSeq)
  | .pong => (s, [])
  | .disconnectN =>
      let (s', effs) := handleDisconnect false s
      (s', Effect.emit .disconnect .other :: effs)
  | .eventN p => (s, handleEventNotification jsonParse p)
  | .other _ => (s, [])

/-- Options argument of `send` (source lines 405-410); the opaque
`setting` passthrough is omitted. -/
structure SendOptions where
  clientMsgNo : Option String := none
  header : Option Header := none
  topic : Option String := none
deriving Repr

/-- The `params` record built by `send` (source lines 424-432). -/
structure SendParams where
  clientMsgNo : String
  channelId : String
  channelType : Int
  payload : JsonValue
  header : Header
  topic : Option String
deriving Repr

/-- JS test `typeof payload === 'object' && payload !== null`: objects
and arrays pass, `null` and primitives do not. -/
def jsIsNonNullObject : JsonValue → Bool
  | .obj _ => true
  | .arr _ => true
  | _ => false

/-- `send(channelId, channelType, payload, options)` (source lines
401-435) up to the `sendRequest` hand-off.  Returns the request `params`
and, to model the in-place `header.redDot = true` mutation of the
caller-supplied header object, the value of `options.header` as observed
by the caller after the call.  `freshMsgNo` stands for the UUID generated
when no (truthy) `clientMsgNo` is supplied. -/
def send (s : WKIMState) (channelId : String) (channelType : Int)
    (payload : JsonValue) (options : SendOptions) (freshMsgNo : String) :
    Except String (SendParams × Option Header) :=
  if !s.isConnected || s.ws ≠ some WsReadyState.open then
    .error "Not connected. Call connect() first."
  else if !(jsIsNonNullObject payload) then
    .error "Payload must be a non-null object."
  else
    let header : Header := { options.header.getD {} with redDot := some true }
    let clientMsgNo :=
      match options.clientMsgNo with
      | some c => if c = "" then freshMsgNo else c
      | none => freshMsgNo
    .ok ({ clientMsgNo := clientMsgNo, channelId := channelId,
           channelType := channelType, payload := payload,
           header := header, topic := options.topic },
         options.header.map fun h => { h with redDot := some true })

/-- `AuthOptions` (source lines 128-133). -/
structure AuthOptions where
  uid : String
  token : String
  deviceId : Option String := none
  deviceFlag : Option Nat := none
deriving Repr

/-- The third argument of `init` (source line 272). -/
structure InitOptions where
  singleton : Option Bool := none
deriving Repr

/-- The observable construction result of `new WKIM(url, auth)`
(source lines 249-263): the stored url, the auth record after the
device-id backfill, and the generated session id. -/
structure WKIMInst where
  url : String
  auth : AuthOptions
  sessionId : String
deriving Repr

/-- The `WKIM` constructor (source lines 249-263): backfill a missing or
empty `deviceId` from the first 8 characters of the session id and the
current timestamp. -/
def mkWKIM (url : String) (a : AuthOptions) (sessionId : String) (now : Nat) :
    WKIMInst :=
  let fresh := "web_" ++ (sessionId.take 8) ++ "_" ++ toString now
  let deviceId :=
    match a.deviceId with
    | some d => if d = "" then fresh else d
    | none => fresh
  { url := url, auth := { a with deviceId := some deviceId }, sessionId := sessionId }

/-- `WKIM.init(url, auth, options)` (source lines 272-290) together with
the process-wide `globalInstance` (threaded as `g`).  Validation failure
throws (`Except.error`) with `g` untouched.  Otherwise, in singleton mode
with an existing registered instance, that instance is destroyed (which
clears the registration) before the new instance is constructed and,
unless `singleton` is explicitly `false`, registered. -/
def init (url : String) (auth : Option AuthOptions) (options : InitOptions)
    (g : Option WKIMInst) (sessionId : String) (now : Nat) :
    Except String WKIMInst × Option WKIMInst :=
  match auth with
  | none => (.error "URL, uid, and token are required for initialization.", g)
  | some a =>
    if url = "" || a.uid = "" || a.token = "" then
      (.error "URL, uid, and token are required for initialization.", g)
    else
      let g1 := if options.singleton = some true && g.isSome then none else g
      let inst := mkWKIM url a sessionId now
      let g2 := if options.singleton ≠ some false then some inst else g1
      (.ok inst, g2)

/-- Event alphabet of the request/response correlator, one constructor
per code path that touches the pending-request table:
`register` is one synchronous run of `sendRequest` (source lines
528-558; `sendOk = false` is the path where `ws.send` throws, which
clears the timer, deletes the fresh entry and rejects before returning);
`response` is `handleResponse` (lines 599-613); `timerFire` is the
timeout callback armed at lines 541-544 (a timer whose id is no longer
in the table has been cleared by `clearTimeout` and can never fire, so
the guard below is vacuous for it); `cleanup` is the pending-request
sweep of `cleanupConnection` (lines 748-753). -/
inductive CorrEvent where
  | register (method : String) (rid : String) (sendOk : Bool)
  | response (rid : String) (isErr : Bool)
  | timerFire (rid : String)
  | cleanup
deriving Repr, DecidableEq

/-- One correlator step: the pending-request table before and after, and
the effects of the handler run. -/
def corrStep (pend : List String) : CorrEvent → List String × List Effect
  | .register method rid sendOk =>
      if sendOk then
        (pend ++ [rid], [Effect.sendReq method rid])
      else
        (pend, [Effect.sendReq method rid, Effect.clearTimer rid,
                Effect.settle rid (.rejected "send error")])
  | .response rid isErr =>
      if rid ∈ pend then
        (pend.erase rid,
         [Effect.clearTimer rid,
          Effect.settle rid (if isErr then .rejected "response error" else .resolved)])
      else
        (pend, [])
  | .timerFire rid =>
      if rid ∈ pend then
        (pend.erase rid, [Effect.settle rid (.rejected "Request timeout")])
      else
        (pend, [])
  | .cleanup =>
      ([], (pend.map fun r =>
        [Effect.clearTimer r, Effect.settle r (.rejected "Connection closed")]).flatten)

/-- Run the correlator over a sequence of events, accumulating effects. -/
def corrRun (pend : List String) : List CorrEvent → List String × List Effect
  | [] => (pend, [])
  | e :: es =>
      let (p1, f1) := corrStep pend e
      let (p2, f2) := corrRun p1 es
      (p2, f1 ++ f2)

/-- Does this effect settle the promise of request `rid`? -/
def isSettleFor (rid : String) : Effect → Bool
  | .settle r _ => r = rid
  | _ => false

/-- Number of settlements of request `rid` among the effects. -/
def settleCount (rid : String) (effs : List Effect) : Nat :=
  (effs.filter (isSettleFor rid)).length

/-- The three ways an entry can be removed from the table: a matching
response, its own timeout firing, or the teardown sweep. -/
def isTriggerFor (rid : String) : CorrEvent → Bool
  | .response r _ => r = rid
  | .timerFire r => r = rid
  | .cleanup => true
  | _ => false

/-- Is this event a `sendRequest` run that (re)uses id `rid`? -/
def isRegisterOf (rid : String) : CorrEvent → Bool
  | .register _ r _ => r = rid
  | _ => false

/-- A concrete session state with two pending requests, used as the C3
witness input. -/
def twoPendingState : WKIMState :=
  { pendingRequests := ["a", "b"], ws := some .open, isConnected := true }

/-- `scheduleReconnect` applied `n` times (the state evolution of `n`
consecutive scheduled retries, each of whose `connect()` attempts
fails and re-enters `scheduleReconnect`). -/
def schedIter : Nat → WKIMState → WKIMState
  | 0, s => s
  | n + 1, s => schedIter n (scheduleReconnect s).1

/-- Classifies effects that belong to the Reconnection Policy: arming a
retry timer, the retry callback invoking `connect()`, or emitting a
`reconnecting` event. -/
def isReconnectEffect : Effect → Bool
  | .scheduleTimer _ => true
  | .callConnect => true
  | .emit .reconnecting _ => true
  | _ => false

/-- A concrete authenticating-phase state: transport open, a stored
connect promise for caller 7, not reconnecting; C5 witness input. -/
def authPhaseState : WKIMState :=
  { ws := some .open, connectionPromise := some 7 }

/-- Is this effect an emission of the given SDK event? -/
def isEmitOf (ev : SdkEvent) : Effect → Bool
  | .emit e _ => e = ev
  | _ => false

/-- Is this effect an outbound `recvack` notification frame? -/
def isRecvAckNotif : Effect → Bool
  | .sendNotif m _ => m = "recvack"
  | _ => false

/-- `emit` (source lines 469-480) invokes every registered listener of
the event once per emission, catching listener exceptions; with `n`
registered listeners, the number of listener invocations produced by an
effect list is `n` per matching emission. -/
def emitInvocations (n : Nat) (ev : SdkEvent) (effs : List Effect) : Nat :=
  ((effs.filter (isEmitOf ev)).length) * n

/-- The concrete message of the spec's example: `messageId = "m1"`,
`messageSeq = 7`; C7 witness input. -/
def exampleRecv : RecvMessage :=
  ⟨{}, "m1", 7, 0, "ch", 1, "u", JsonValue.null⟩

/-- Concrete event-notification params: valid id/type and a string data
payload `"a1"`; C8 witness input. -/
def exEventParams : EventParams :=
  { id := some "e1", type := some "t", data := some (DataVal.str "a1") }

/-- A concrete decoder for the C8 witness: decodes exactly the string
`"a1"` into a one-field object and fails on everything else. -/
def exJsonParse : JsonParseFn :=
  fun s => if s = "a1" then some (JsonValue.obj [("a", JsonValue.num 1)]) else none

/-- A connected session state with an open transport; C9 witness input. -/
def connectedState : WKIMState :=
  { isConnected := true, ws := some .open }

/-- A caller-supplied header with `redDot` explicitly `false`; C9
witness input. -/
def exCallerHeader : Header :=
  { noPersist := some true, redDot := some false }

/-- Number of settlements of the connect promise held for caller `c`
among the effects. -/
def settleConnectCount (c : Nat) (effs : List Effect) : Nat :=
  (effs.filter fun e => match e with
    | .settleConnectP c2 _ => c2 = c
    | _ => false).length

/-- A state with a connection attempt in flight for caller 1; C2
witness input. -/
def inFlightState : WKIMState :=
  { ws := some .connecting, connectionPromise := some 1 }

theorem settleCount_append (rid : String) (a b : List Effect) :
    settleCount rid (a ++ b) = settleCount rid a + settleCount rid b := by
  simp [settleCount, List.filter_append]

theorem settleCount_sweep (rid : String) (l : List String) :
    settleCount rid ((l.map fun r =>
      [Effect.clearTimer r, Effect.settle r (.rejected "Connection closed")]).flatten)
      = l.count rid := by
  induction l with
  | nil => simp [settleCount]
  | cons r rs ih =>
      by_cases h : r = rid
      · subst h
        simp [settleCount, isSettleFor, List.count_cons] at ih ⊢
        omega
      · simp [settleCount, isSettleFor, h, List.count_cons] at ih ⊢
        simpa [Ne.symm h] using ih

theorem corr_settle_zero (evs : List CorrEvent) (pend : List String) (rid : String)
    (hcnt : pend.count rid = 0)
    (hfresh : ∀ e ∈ evs, isRegisterOf rid e = false) :
    settleCount rid (corrRun pend evs).2 = 0 ∧ (corrRun pend evs).1.count rid = 0 := by
  induction evs generalizing pend with
  | nil => simpa [corrRun, settleCount] using hcnt
  | cons e es ih =>
      have hfe : isRegisterOf rid e = false := hfresh e (by simp)
      have hfes : ∀ x ∈ es, isRegisterOf rid x = false :=
        fun x hx => hfresh x (by simp [hx])
      have hnot : rid ∉ pend := List.count_eq_zero.mp hcnt
      cases e with
      | register m r ok =>
          have hr : r ≠ rid := by
            intro h; simp [isRegisterOf, h] at hfe
          cases ok with
          | true =>
              have := ih (pend ++ [r]) (by simp [List.count_append, hcnt, Ne.symm hr])
                hfes
              simpa [corrRun, corrStep, settleCount_append, settleCount, isSettleFor]
                using this
          | false =>
              have := ih pend hcnt hfes
              simpa [corrRun, corrStep, settleCount_append, settleCount, isSettleFor, hr]
                using this
      | response r isErr =>
          by_cases hmem : r ∈ pend
          · have hr : r ≠ rid := fun h => hnot (h ▸ hmem)
            have := ih (pend.erase r)
              (by simp [List.count_erase_of_ne (Ne.symm hr), hcnt]) hfes
            simpa [corrRun, corrStep, hmem, settleCount_append, settleCount, isSettleFor,
              hr] using this
          · have := ih pend hcnt hfes
            simpa [corrRun, corrStep, hmem, settleCount_append, settleCount] using this
      | timerFire r =>
          by_cases hmem : r ∈ pend
          · have hr : r ≠ rid := fun h => hnot (h ▸ hmem)
            have := ih (pend.erase r)
              (by simp [List.count_erase_of_ne (Ne.symm hr), hcnt]) hfes
            simpa [corrRun, corrStep, hmem, settleCount_append, settleCount, isSettleFor,
              hr] using this
          · have := ih pend hcnt hfes
            simpa [corrRun, corrStep, hmem, settleCount_append, settleCount] using this
      | cleanup =>
          have := ih [] (by simp) hfes
          simpa [corrRun, corrStep, settleCount_append, settleCount_sweep, hcnt]
            using this

theorem settleCount_nil (rid : String) : settleCount rid [] = 0 := rfl

theorem settleCount_cons (rid : String) (e : Effect) (rest : List Effect) :
    settleCount rid (e :: rest)
      = (if isSettleFor rid e then 1 else 0) + settleCount rid rest := by
  simp only [settleCount, List.filter_cons]
  split <;> simp [Nat.add_comm]

/-- C1: for every pending request created by `sendRequest` (its fresh id
`rid` is in the table exactly once and, UUIDs being fresh, no later
`sendRequest` run reuses it), running any sequence of correlator events
settles its promise exactly once as soon as the sequence contains one of
the three removal triggers — a matching response, its timeout firing, or
the teardown sweep — and never more than once; and the entry is out of
the table exactly when the settlement has happened.  Since the timeout
timer is armed for as long as the entry is in the table, every complete
execution eventually contains a trigger, so the promise is settled
exactly once and never both ways. -/
theorem sendRequest_settled_exactly_once (pend : List String) (rid : String)
    (evs : List CorrEvent)
    (hcnt : pend.count rid = 1)
    (hfresh : ∀ e ∈ evs, isRegisterOf rid e = false) :
    settleCount rid (corrRun pend evs).2
        = (if evs.any (isTriggerFor rid) then 1 else 0) ∧
    (corrRun pend evs).1.count rid
        = (if evs.any (isTriggerFor rid) then 0 else 1) := by
  induction evs generalizing pend with
  | nil => simpa [corrRun, settleCount] using hcnt
  | cons e es ih =>
      have hfe : isRegisterOf rid e = false := hfresh e (by simp)
      have hfes : ∀ x ∈ es, isRegisterOf rid x = false :=
        fun x hx => hfresh x (by simp [hx])
      by_cases ht : isTriggerFor rid e = true
      · cases e with
        | register m r ok => simp [isTriggerFor] at ht
        | response r isErr =>
            have hr : r = rid := by simpa [isTriggerFor] using ht
            subst hr
            have hmem : r ∈ pend := List.count_pos_iff.mp (by omega)
            have hz := corr_settle_zero es (pend.erase r) r (by simp [hcnt]) hfes
            simp [corrRun, corrStep, hmem, settleCount_append, settleCount_cons,
              settleCount_nil, isSettleFor, isTriggerFor, hz.1, hz.2]
        | timerFire r =>
            have hr : r = rid := by simpa [isTriggerFor] using ht
            subst hr
            have hmem : r ∈ pend := List.count_pos_iff.mp (by omega)
            have hz := corr_settle_zero es (pend.erase r) r (by simp [hcnt]) hfes
            simp [corrRun, corrStep, hmem, settleCount_append, settleCount_cons,
              settleCount_nil, isSettleFor, isTriggerFor, hz.1, hz.2]
        | cleanup =>
            have hz := corr_settle_zero es [] rid (by simp) hfes
            simp [corrRun, corrStep, settleCount_append, settleCount_sweep, hcnt,
              isTriggerFor, hz.1, hz.2]
      · have htf : isTriggerFor rid e = false := by simpa using ht
        cases e with
        | register m r ok =>
            have hr : r ≠ rid := by
              intro h; simp [isRegisterOf, h] at hfe
            cases ok with
            | true =>
                have := ih (pend ++ [r])
                  (by simp [List.count_append, hcnt, Ne.symm hr]) hfes
                simpa [corrRun, corrStep, settleCount_append, settleCount_cons,
                  settleCount_nil, isSettleFor, isTriggerFor] using this
            | false =>
                have := ih pend hcnt hfes
                simpa [corrRun, corrStep, settleCount_append, settleCount_cons,
                  settleCount_nil, isSettleFor, isTriggerFor, hr] using this
        | response r isErr =>
            have hr : r ≠ rid := by
              intro h; simp [isTriggerFor, h] at htf
            by_cases hmem : r ∈ pend
            · have := ih (pend.erase r)
                (by simp [List.count_erase_of_ne (Ne.symm hr), hcnt]) hfes
              simpa [corrRun, corrStep, hmem, settleCount_append, settleCount_cons,
                settleCount_nil, isSettleFor, isTriggerFor, hr] using this
            · have := ih pend hcnt hfes
              simpa [corrRun, corrStep, hmem, settleCount_append, settleCount_nil,
                isTriggerFor, hr] using this
        | timerFire r =>
            have hr : r ≠ rid := by
              intro h; simp [isTriggerFor, h] at htf
            by_cases hmem : r ∈ pend
            · have := ih (pend.erase r)
                (by simp [List.count_erase_of_ne (Ne.symm hr), hcnt]) hfes
              simpa [corrRun, corrStep, hmem, settleCount_append, settleCount_cons,
                settleCount_nil, isSettleFor, isTriggerFor, hr] using this
            · have := ih pend hcnt hfes
              simpa [corrRun, corrStep, hmem, settleCount_append, settleCount_nil,
                isTriggerFor, hr] using this
        | cleanup => simp [isTriggerFor] at htf

/-- Witness for C1 at a concrete input: one pending request `"r1"`, a
trace in which its response arrives and is followed by a teardown sweep;
the promise is settled exactly once and the entry is gone. -/
theorem sendRequest_settled_exactly_once_witness :
    settleCount "r1" (corrRun ["r1"]
        [CorrEvent.response "r1" false, CorrEvent.cleanup]).2
      = (if ([CorrEvent.response "r1" false, CorrEvent.cleanup].any
            (isTriggerFor "r1")) then 1 else 0) ∧
    (corrRun ["r1"] [CorrEvent.response "r1" false, CorrEvent.cleanup]).1.count "r1"
      = (if ([CorrEvent.response "r1" false, CorrEvent.cleanup].any
            (isTriggerFor "r1")) then 0 else 1) :=
  sendRequest_settled_exactly_once ["r1"] "r1"
    [CorrEvent.response "r1" false, CorrEvent.cleanup]
    (by decide) (by decide)

/-- C3: tearing down the transport via `cleanupConnection` leaves the
pending-request table empty, and every entry gets its timeout timer
cleared and its promise rejected with the "Connection closed" error,
each exactly once (the settlement count of each id equals its
multiplicity in the table, which is 1 for a table keyed by unique ids). -/
theorem cleanupConnection_rejects_all_pending (s : WKIMState) :
    (cleanupConnection s).1.pendingRequests = [] ∧
    (∀ rid, settleCount rid (cleanupConnection s).2 = s.pendingRequests.count rid) ∧
    (∀ rid ∈ s.pendingRequests,
      Effect.settle rid (.rejected "Connection closed") ∈ (cleanupConnection s).2 ∧
      Effect.clearTimer rid ∈ (cleanupConnection s).2) := by
  refine ⟨?_, ?_, ?_⟩
  · cases h : s.connectionPromise <;>
      simp [cleanupConnection, h] <;> (split <;> simp)
  · intro rid
    have hsweep := settleCount_sweep rid s.pendingRequests
    cases h : s.connectionPromise <;> cases hw : s.ws <;>
      simp [cleanupConnection, h, hw, settleCount_cons, settleCount_append,
        settleCount_nil, isSettleFor, hsweep] <;>
      split <;>
      simp [settleCount_cons, settleCount_append, settleCount_nil, isSettleFor, hsweep]
  · intro rid hrid
    have hmemPair : [Effect.clearTimer rid,
        Effect.settle rid (.rejected "Connection closed")] ∈
        s.pendingRequests.map fun r =>
          [Effect.clearTimer r, Effect.settle r (.rejected "Connection closed")] :=
      List.mem_map_of_mem _ hrid
    have hset : Effect.settle rid (.rejected "Connection closed") ∈
        (s.pendingRequests.map fun r =>
          [Effect.clearTimer r, Effect.settle r (.rejected "Connection closed")]).flatten :=
      List.mem_flatten.mpr ⟨_, hmemPair, by simp⟩
    have hclr : Effect.clearTimer rid ∈
        (s.pendingRequests.map fun r =>
          [Effect.clearTimer r, Effect.settle r (.rejected "Connection closed")]).flatten :=
      List.mem_flatten.mpr ⟨_, hmemPair, by simp⟩
    cases h : s.connectionPromise <;>
      simp [cleanupConnection, h, hset, hclr]

/-- Witness for C3 at a concrete state with two pending requests. -/
theorem cleanupConnection_rejects_all_pending_witness :
    ((cleanupConnection twoPendingState).1.pendingRequests = []) ∧
    settleCount "a" (cleanupConnection twoPendingState).2 = 1 ∧
    Effect.settle "a" (.rejected "Connection closed") ∈
      (cleanupConnection twoPendingState).2 := by
  have h := cleanupConnection_rejects_all_pending twoPendingState
  exact ⟨h.1, by simpa [twoPendingState] using h.2.1 "a",
    (h.2.2 "a" (by simp [twoPendingState])).1⟩

theorem schedIter_attempts (n : Nat) (s : WKIMState)
    (h : s.reconnectAttempts + n ≤ maxReconnectAttempts) :
    (schedIter n s).reconnectAttempts = s.reconnectAttempts + n := by
  induction n generalizing s with
  | zero => simp [schedIter]
  | succ k ih =>
      have hlt : ¬ s.reconnectAttempts ≥ maxReconnectAttempts := by omega
      have hstep : (scheduleReconnect s).1.reconnectAttempts
          = s.reconnectAttempts + 1 := by
        simp [scheduleReconnect, hlt]
      have := ih (scheduleReconnect s).1 (by omega)
      simp only [schedIter]
      omega

/-- C4: starting from a freshly-connected state (attempt counter 0),
after K consecutive failed attempts (K < max) the counter equals K, the
next scheduled retry's delay is base × 2^K and the schedule increments
the counter; at the maximum count, `scheduleReconnect` resets the
counter to 0, clears `isReconnecting`, and emits only the terminal
"Reconnection failed." error — in particular it arms no retry timer. -/
theorem reconnect_backoff_policy (K : Nat) (s : WKIMState)
    (h0 : s.reconnectAttempts = 0) (hK : K < maxReconnectAttempts) :
    (schedIter K s).reconnectAttempts = K ∧
    Effect.scheduleTimer (initialReconnectDelay * 2 ^ K)
      ∈ (scheduleReconnect (schedIter K s)).2 ∧
    (scheduleReconnect (schedIter K s)).1.reconnectAttempts = K + 1 ∧
    (scheduleReconnect (schedIter maxReconnectAttempts s)).1.reconnectAttempts = 0 ∧
    (scheduleReconnect (schedIter maxReconnectAttempts s)).1.isReconnecting = false ∧
    (scheduleReconnect (schedIter maxReconnectAttempts s)).2
      = [Effect.emit .error (.errMsg "Reconnection failed.")] := by
  have hKa : (schedIter K s).reconnectAttempts = K := by
    have := schedIter_attempts K s (by omega)
    omega
  have hMa : (schedIter maxReconnectAttempts s).reconnectAttempts
      = maxReconnectAttempts := by
    have := schedIter_attempts maxReconnectAttempts s (by omega)
    omega
  have hif : ¬ maxReconnectAttempts ≤ K := by omega
  refine ⟨hKa, ?_, ?_, ?_, ?_, ?_⟩ <;>
    simp [scheduleReconnect, hKa, hMa, hif]

/-- Witness for C4 with K = 3 failed attempts from a fresh state. -/
theorem reconnect_backoff_policy_witness :
    (schedIter 3 ({} : WKIMState)).reconnectAttempts = 3 ∧
    Effect.scheduleTimer (initialReconnectDelay * 2 ^ 3)
      ∈ (scheduleReconnect (schedIter 3 ({} : WKIMState))).2 ∧
    (scheduleReconnect (schedIter 3 ({} : WKIMState))).1.reconnectAttempts = 3 + 1 ∧
    (scheduleReconnect
      (schedIter maxReconnectAttempts ({} : WKIMState))).1.reconnectAttempts = 0 ∧
    (scheduleReconnect
      (schedIter maxReconnectAttempts ({} : WKIMState))).1.isReconnecting = false ∧
    (scheduleReconnect (schedIter maxReconnectAttempts ({} : WKIMState))).2
      = [Effect.emit .error (.errMsg "Reconnection failed.")] :=
  reconnect_backoff_policy 3 {} rfl (by decide)

/-- C6: after `disconnect()` runs — in particular when it runs during a
scheduled reconnection delay — the `isReconnecting` flag is cleared and
the retry timer's callback therefore returns without invoking
`connect()`: it produces no effect at all. -/
theorem disconnect_aborts_scheduled_reconnect (s : WKIMState) :
    (disconnect s).1.isReconnecting = false ∧
    reconnectTimerCallback (disconnect s).1 = [] := by
  have h : (disconnect s).1.isReconnecting = false := by
    cases h : s.connectionPromise <;>
      simp [disconnect, handleDisconnect, cleanupConnection, h]
  exact ⟨h, by simp [reconnectTimerCallback, h]⟩

/-- The state after `cleanupConnection`: disconnected, empty table, no
stored connect promise; every other field is untouched. -/
theorem cleanupConnection_state (s : WKIMState) :
    (cleanupConnection s).1
      = { s with isConnected := false, pendingRequests := [],
                 connectionPromise := none } := by
  cases h : s.connectionPromise <;> simp [cleanupConnection, h] <;> (split <;> rfl)

theorem sweep_no_reconnect_effect (l : List String) :
    ∀ e ∈ (l.map fun r =>
      [Effect.clearTimer r, Effect.settle r (.rejected "Connection closed")]).flatten,
      isReconnectEffect e = false := by
  intro e he
  rcases List.mem_flatten.mp he with ⟨pair, hpair, hepair⟩
  rcases List.mem_map.mp hpair with ⟨r, _, rfl⟩
  simp at hepair
  rcases hepair with rfl | rfl <;> simp [isReconnectEffect]

theorem cleanupConnection_no_reconnect_effect (s : WKIMState) :
    ∀ e ∈ (cleanupConnection s).2, isReconnectEffect e = false := by
  cases h : s.connectionPromise <;> cases hw : s.ws <;>
    by_cases hr : s.isReconnecting <;>
    simp [cleanupConnection, h, hw, hr, isReconnectEffect,
      List.forall_mem_append] <;>
    first
    | (rintro e a ha (rfl | rfl) <;> rfl)
    | (rintro e (⟨a, ha, rfl | rfl⟩ | rfl) <;> rfl)
    | (rintro e (⟨a, ha, rfl | rfl⟩ | rfl | rfl) <;> rfl)

theorem cleanupConnection_detaches (s : WKIMState) (w : WsReadyState)
    (hw : s.ws = some w) : Effect.detachHandlers ∈ (cleanupConnection s).2 := by
  cases h : s.connectionPromise <;> simp [cleanupConnection, h, hw] <;> (split <;> simp)

/-- C5: when the authentication handshake request fails (rejection or
timeout), the `.catch` path of `sendConnectRequest` rejects the public
connect promise with the failure, force-closes the transport with the
custom close code 3001, and produces no Reconnection Policy effect
whatsoever: no retry timer is armed, no `connect()` is re-invoked, no
`reconnecting` event is emitted, and the `isReconnecting` flag is left
untouched.  The same synchronous run also detaches every transport
handler, so the closing transport's own `onclose` callback cannot
re-enter the policy afterwards. -/
theorem auth_failure_no_reconnect (errMsg : String) (s : WKIMState) (c : Nat)
    (hws : s.ws = some WsReadyState.open)
    (hcp : s.connectionPromise = some c) :
    Effect.settleConnectP c (.rejected errMsg) ∈ (authFailure errMsg s).2 ∧
    Effect.wsClose 3001 ∈ (authFailure errMsg s).2 ∧
    Effect.detachHandlers ∈ (authFailure errMsg s).2 ∧
    (∀ e ∈ (authFailure errMsg s).2, isReconnectEffect e = false) ∧
    (authFailure errMsg s).1.isReconnecting = s.isReconnecting := by
  have h1 := cleanupConnection_no_reconnect_effect
    ({ s with ws := some WsReadyState.open, connectionPromise := none })
  have h2 := cleanupConnection_no_reconnect_effect
    ((cleanupConnection
      { s with ws := some WsReadyState.open, connectionPromise := none }).1)
  have hdet := cleanupConnection_detaches
    ({ s with ws := some WsReadyState.open, connectionPromise := none })
    WsReadyState.open rfl
  refine ⟨?_, ?_, ?_, ?_, ?_⟩
  · simp [authFailure, hcp, handleDisconnect, hws]
  · simp [authFailure, hcp, handleDisconnect, hws]
  · simp only [authFailure, hcp, handleDisconnect, hws]
    simp [hws]
    exact Or.inl hdet
  · intro e he
    simp [authFailure, hcp, handleDisconnect, hws] at he
    rcases he with rfl | rfl | rfl | rfl | hmem | hmem
    · rfl
    · rfl
    · rfl
    · rfl
    · exact h1 e hmem
    · exact h2 e hmem
  · simp [authFailure, hcp, handleDisconnect, hws, cleanupConnection_state]

/-- Witness for C5 at the concrete authenticating-phase state. -/
theorem auth_failure_no_reconnect_witness :
    Effect.settleConnectP 7 (.rejected "auth failed")
      ∈ (authFailure "auth failed" authPhaseState).2 ∧
    Effect.wsClose 3001 ∈ (authFailure "auth failed" authPhaseState).2 ∧
    Effect.detachHandlers ∈ (authFailure "auth failed" authPhaseState).2 ∧
    (∀ e ∈ (authFailure "auth failed" authPhaseState).2,
      isReconnectEffect e = false) ∧
    (authFailure "auth failed" authPhaseState).1.isReconnecting
      = authPhaseState.isReconnecting :=
  auth_failure_no_reconnect "auth failed" authPhaseState 7 rfl rfl

/-- C7: one inbound `recv` notification produces exactly one `message`
event emission — hence one delivery per registered listener, whatever
their number — and exactly one outbound `recvack` notification, and
that acknowledgment carries the received message's own header flags,
message id and message sequence. -/
theorem recv_emits_once_and_acks (jp : JsonParseFn) (s : WKIMState)
    (m : RecvMessage) (wsOpen : Bool) (hopen : wsOpen = true) :
    ((handleNotification jp wsOpen s (.recv m)).2.filter (isEmitOf .message)).length
      = 1 ∧
    (∀ n, emitInvocations n .message (handleNotification jp wsOpen s (.recv m)).2
      = n) ∧
    ((handleNotification jp wsOpen s (.recv m)).2.filter isRecvAckNotif).length = 1 ∧
    Effect.sendNotif "recvack" (.recvack m.header m.messageId m.messageSeq)
      ∈ (handleNotification jp wsOpen s (.recv m)).2 ∧
    Effect.emit .message (.msg m) ∈ (handleNotification jp wsOpen s (.recv m)).2 := by
  subst hopen
  refine ⟨?_, ?_, ?_, ?_, ?_⟩ <;>
    simp [handleNotification, sendRecvAck, sendNotificationStep, emitInvocations,
      isEmitOf, isRecvAckNotif]

/-- Witness for C7 at the spec's example message. -/
theorem recv_emits_once_and_acks_witness :
    ((handleNotification (fun _ => none) true {}
        (.recv exampleRecv)).2.filter (isEmitOf .message)).length = 1 ∧
    (∀ n, emitInvocations n .message
      (handleNotification (fun _ => none) true {} (.recv exampleRecv)).2 = n) ∧
    ((handleNotification (fun _ => none) true {}
        (.recv exampleRecv)).2.filter isRecvAckNotif).length = 1 ∧
    Effect.sendNotif "recvack"
        (.recvack exampleRecv.header exampleRecv.messageId exampleRecv.messageSeq)
      ∈ (handleNotification (fun _ => none) true {} (.recv exampleRecv)).2 ∧
    Effect.emit .message (.msg exampleRecv)
      ∈ (handleNotification (fun _ => none) true {} (.recv exampleRecv)).2 :=
  recv_emits_once_and_acks (fun _ => none) {} exampleRecv true rfl

/-- C8: for every inbound `event` notification, a JS-falsy (absent or
empty) `id` or `type` suppresses the custom event and emits an error
instead; otherwise a string `data` payload is replaced by its decoded
value when the decode succeeds and kept verbatim when it fails, a
non-string payload is passed through unchanged, and in all valid cases
exactly one `customevent` is emitted, after the best-effort decode. -/
theorem event_notification_validate_and_decode (jp : JsonParseFn) (p : EventParams) :
    ((jsFalsyStr p.id || jsFalsyStr p.type) = true →
      handleEventNotification jp p
        = [Effect.emit .error
            (.errMsg "Invalid event notification: missing required fields")] ∧
      (handleEventNotification jp p).filter (isEmitOf .customevent) = []) ∧
    ((jsFalsyStr p.id || jsFalsyStr p.type) = false →
      ((handleEventNotification jp p).filter (isEmitOf .customevent)).length = 1 ∧
      (∀ sv, p.data = some (DataVal.str sv) →
        (∀ v, jp sv = some v →
          handleEventNotification jp p = [Effect.emit .customevent (.custom
            ⟨p.header, p.id, p.type, p.timestamp, some (DataVal.val v)⟩)]) ∧
        (jp sv = none →
          handleEventNotification jp p = [Effect.emit .customevent (.custom
            ⟨p.header, p.id, p.type, p.timestamp, some (DataVal.str sv)⟩)])) ∧
      (∀ v, p.data = some (DataVal.val v) →
        handleEventNotification jp p = [Effect.emit .customevent (.custom
          ⟨p.header, p.id, p.type, p.timestamp, some (DataVal.val v)⟩)]) ∧
      (p.data = none →
        handleEventNotification jp p = [Effect.emit .customevent (.custom
          ⟨p.header, p.id, p.type, p.timestamp, none⟩)])) := by
  constructor
  · intro h
    simp [handleEventNotification, h, isEmitOf]
  · intro h
    refine ⟨?_, ?_, ?_, ?_⟩
    · rcases hd : p.data with _ | dv
      · simp [handleEventNotification, h, hd, isEmitOf]
      · rcases dv with sv | v
        · rcases hjp : jp sv with _ | v <;>
            simp [handleEventNotification, h, hd, hjp, isEmitOf]
        · simp [handleEventNotification, h, hd, isEmitOf]
    · intro sv hd
      constructor
      · intro v hjp
        simp [handleEventNotification, h, hd, hjp]
      · intro hjp
        simp [handleEventNotification, h, hd, hjp]
    · intro v hd
      simp [handleEventNotification, h, hd]
    · intro hd
      simp [handleEventNotification, h, hd]

/-- Witness for C8: with the concrete decoder, the valid notification's
string payload is decoded and exactly one custom event is emitted. -/
theorem event_notification_validate_and_decode_witness :
    handleEventNotification exJsonParse exEventParams
      = [Effect.emit .customevent (.custom
          ⟨none, some "e1", some "t", none,
            some (DataVal.val (JsonValue.obj [("a", JsonValue.num 1)]))⟩)] :=
  (((event_notification_validate_and_decode exJsonParse exEventParams).2
    (by decide)).2.1 "a1" rfl).1 (JsonValue.obj [("a", JsonValue.num 1)]) rfl

/-- C9: whenever `send()` actually builds a request frame (connected,
transport open, object payload), the frame's header has `redDot = true`
no matter what the caller passed, and a caller-supplied header object is
itself mutated in place: the value the caller observes afterwards is its
own header with `redDot` overwritten to `true`, and it is the very
header carried by the outgoing frame. -/
theorem send_forces_redDot_and_mutates_header (s : WKIMState)
    (channelId : String) (channelType : Int) (payload : JsonValue)
    (options : SendOptions) (freshMsgNo : String)
    (hc : s.isConnected = true) (hw : s.ws = some WsReadyState.open)
    (hp : jsIsNonNullObject payload = true) :
    ∃ p : SendParams,
      send s channelId channelType payload options freshMsgNo
        = .ok (p, options.header.map fun h => { h with redDot := some true }) ∧
      p.header.redDot = some true ∧
      (∀ h0, options.header = some h0 →
        p.header = { h0 with redDot := some true } ∧
        (options.header.map fun h => { h with redDot := some true })
          = some p.header) ∧
      (options.header = none → p.header = { redDot := some true }) := by
  refine ⟨{ clientMsgNo := match options.clientMsgNo with
                           | some c => if c = "" then freshMsgNo else c
                           | none => freshMsgNo,
            channelId := channelId, channelType := channelType,
            payload := payload,
            header := { options.header.getD {} with redDot := some true },
            topic := options.topic }, ?_, ?_, ?_, ?_⟩
  · simp [send, hc, hw, hp]
  · simp
  · intro h0 hh
    simp [hh]
  · intro hh
    simp [hh]

/-- Witness for C9: sending with a caller header whose `redDot` is
`false` produces a frame whose header has `redDot = true`, and the
caller's own header object now carries `redDot = true` as well. -/
theorem send_forces_redDot_and_mutates_header_witness :
    ∃ p : SendParams,
      send connectedState "ch" 1 (JsonValue.obj [])
          { header := some exCallerHeader } "msg1"
        = .ok (p, (some exCallerHeader).map fun h => { h with redDot := some true }) ∧
      p.header.redDot = some true ∧
      (∀ h0, some exCallerHeader = some h0 →
        p.header = { h0 with redDot := some true } ∧
        ((some exCallerHeader).map fun h => { h with redDot := some true })
          = some p.header) ∧
      (some exCallerHeader = (none : Option Header) →
        p.header = { redDot := some true }) :=
  send_forces_redDot_and_mutates_header connectedState "ch" 1 (JsonValue.obj [])
    { header := some exCallerHeader } "msg1" rfl rfl rfl

/-- C10: `init` throws synchronously — returning the validation error
and constructing nothing — when the url is empty, the auth record is
absent, or its uid or token is empty, and the process-wide global
instance registration is left exactly as it was. -/
theorem init_invalid_throws (url : String) (auth : Option AuthOptions)
    (options : InitOptions) (g : Option WKIMInst) (sessionId : String) (now : Nat)
    (h : url = "" ∨ auth = none ∨
      (∃ a, auth = some a ∧ (a.uid = "" ∨ a.token = ""))) :
    init url auth options g sessionId now
      = (.error "URL, uid, and token are required for initialization.", g) := by
  rcases auth with _ | a
  · simp [init]
  · rcases h with h | h | ⟨a2, ha2, h⟩
    · simp [init, h]
    · exact absurd h (by simp)
    · cases Option.some.inj ha2
      rcases h with h | h <;> simp [init, h]

/-- Witness for C10: empty uid with non-empty url and token; the global
registration (here an already-registered instance) is unchanged. -/
theorem init_invalid_throws_witness :
    init "ws://host" (some { uid := "", token := "tk" }) {}
        (some (mkWKIM "u" { uid := "x", token := "y" } "sid" 0)) "sid2" 1
      = (.error "URL, uid, and token are required for initialization.",
         some (mkWKIM "u" { uid := "x", token := "y" } "sid" 0)) :=
  init_invalid_throws "ws://host" (some { uid := "", token := "tk" }) {}
    (some (mkWKIM "u" { uid := "x", token := "y" } "sid" 0)) "sid2" 1
    (Or.inr (Or.inr ⟨{ uid := "", token := "tk" }, rfl, Or.inl rfl⟩))

/-- Counterexample to C2 as stated: caller 1 starts a connection attempt
(transport now CONNECTING, promise stored for caller 1); caller 2 calls
`connect()` while the attempt is in flight, which overwrites the stored
continuations (source lines 305-306); the attempt then succeeds.  Over
the whole run the attempt's outcome settles caller 2's promise once and
caller 1's promise zero times — the stored promise slot afterwards is
empty, so caller 1's promise can never be settled — refuting "both
callers' promises are settled by that attempt's outcome".  (Only one
transport is opened, as the claim also says.) -/
theorem connect_chain_counterexample :
    settleConnectCount 1
      ((connectStep 1 ({} : WKIMState)).2
        ++ (connectStep 2 (connectStep 1 ({} : WKIMState)).1).2
        ++ (authSuccess (connectStep 2 (connectStep 1 ({} : WKIMState)).1).1).2)
      = 0 ∧
    settleConnectCount 2
      ((connectStep 1 ({} : WKIMState)).2
        ++ (connectStep 2 (connectStep 1 ({} : WKIMState)).1).2
        ++ (authSuccess (connectStep 2 (connectStep 1 ({} : WKIMState)).1).1).2)
      = 1 ∧
    (authSuccess (connectStep 2 (connectStep 1 ({} : WKIMState)).1).1).1.connectionPromise
      = none ∧
    ((connectStep 1 ({} : WKIMState)).2
        ++ (connectStep 2 (connectStep 1 ({} : WKIMState)).1).2
        ++ (authSuccess (connectStep 2 (connectStep 1 ({} : WKIMState)).1).1).2).filter
        (fun e => match e with | Effect.openTransport => true | _ => false)
      = [Effect.openTransport] := by
  refine ⟨rfl, rfl, rfl, rfl⟩

/-- C2 (amended): `connect()` is idempotent while already connected (the
new caller's promise resolves immediately), and when an attempt is in
flight (transport CONNECTING with a stored promise) the new caller's
continuations replace the stored ones and no second transport is
opened; the attempt's outcome then settles only the most recently
chained caller's promise — an earlier caller's promise is settled zero
times by the run (it is abandoned, never settled both ways or at all). -/
theorem connect_idempotent_and_chain_replaces (s : WKIMState) (cNew cOld : Nat)
    (hno : s.isConnected = false) (hws : s.ws = some WsReadyState.connecting)
    (hcp : s.connectionPromise = some cOld) (hne : cOld ≠ cNew) :
    (∀ t : WKIMState, t.isConnected = true →
      connectStep cNew t = (t, [Effect.settleConnectP cNew .resolved])) ∧
    Effect.openTransport ∉ (connectStep cNew s).2 ∧
    (connectStep cNew s).1.connectionPromise = some cNew ∧
    settleConnectCount cNew
      ((connectStep cNew s).2 ++ (authSuccess (connectStep cNew s).1).2) = 1 ∧
    settleConnectCount cOld
      ((connectStep cNew s).2 ++ (authSuccess (connectStep cNew s).1).2) = 0 := by
  refine ⟨?_, ?_, ?_, ?_, ?_⟩
  · intro t ht
    simp [connectStep, ht]
  · simp [connectStep, hno, hws, hcp]
  · simp [connectStep, hno, hws, hcp]
  · simp [connectStep, hno, hws, hcp, authSuccess, settleConnectCount]
  · simp [connectStep, hno, hws, hcp, authSuccess, settleConnectCount,
      Ne.symm hne]

/-- Witness for the amended C2 at the concrete in-flight state. -/
theorem connect_idempotent_and_chain_replaces_witness :
    (∀ t : WKIMState, t.isConnected = true →
      connectStep 2 t = (t, [Effect.settleConnectP 2 .resolved])) ∧
    Effect.openTransport ∉ (connectStep 2 inFlightState).2 ∧
    (connectStep 2 inFlightState).1.connectionPromise = some 2 ∧
    settleConnectCount 2
      ((connectStep 2 inFlightState).2
        ++ (authSuccess (connectStep 2 inFlightState).1).2) = 1 ∧
    settleConnectCount 1
      ((connectStep 2 inFlightState).2
        ++ (authSuccess (connectStep 2 inFlightState).1).2) = 0 :=
  connect_idempotent_and_chain_replaces inFlightState 2 1 rfl rfl rfl
    (by decide)
